import Mathlib

/-!
Verification of the esp-now-sensor firmware (src/esp-now-sensor.ino)
against its natural-language specification.

This file gives a shallow embedding of the firmware's read-send-sleep
cycle.  Temperatures (C `float`) are modelled as exact rationals: every
operation the code performs on them is an exact comparison or a plain
copy, and all constants involved (-120, -127, 21.5) are exactly
representable in binary floating point, so the embedding is faithful.
Machine-integer truncation is kept explicit (`% 256` where a result is
stored into a `uint8_t`).  The environment (driver return values) is
passed explicitly; side effects (datagrams handed to the radio driver,
the sleep request) are returned as data.
-/

/-- compile-time constant `UNIQUE_DEVICE_ID` (line 19): `0x01`. -/
def UNIQUE_DEVICE_ID : Nat := 0x01

/-- compile-time constant `SEND_INTERVALL_SECONDS` (line 20): `1800`. -/
def SEND_INTERVALL_SECONDS : Nat := 1800

/-- compile-time constant `VER_MAJOR` (line 22): `0x01`. -/
def VER_MAJOR : Nat := 0x01

/-- compile-time constant `VER_MINOR` (line 23): `0x01`. -/
def VER_MINOR : Nat := 0x01

/-- the `DeviceAddress sensor1` constant (line 35): an 8-byte 1-wire address. -/
def sensor1 : List Nat := [0x28, 0xEF, 0xC5, 0x57, 0x04, 0x08, 0x3C, 0x48]

/-- the `DeviceAddress sensor2` constant (line 36): an 8-byte 1-wire address. -/
def sensor2 : List Nat := [0x28, 0xEF, 0xC5, 0x57, 0x04, 0x08, 0x3C, 0x48]

/-- the `receiverAdress` constant (line 40): the 6-byte peer MAC address. -/
def receiverAdress : List Nat := [0x08, 0xAA, 0xB5, 0x8B, 0x01, 0xC8]

/-- enumerator `SUCCESS` of `enum sensor_states` (line 48). -/
def SUCCESS : Nat := 0

/-- enumerator `FAILED` of `enum sensor_states` (line 49). -/
def FAILED : Nat := 1

/-- enumerator `NOT_USED` of `enum sensor_states` (line 50). -/
def NOT_USED : Nat := 2

/-- the C `struct_sensor` (lines 53-56): a `uint8_t state` and a `float value`. -/
structure struct_sensor where
  state : Nat
  value : Rat
deriving Repr, DecidableEq

/-- the C `struct_version` (lines 58-61): firmware version major/minor bytes. -/
structure struct_version where
  major : Nat
  minor : Nat
deriving Repr, DecidableEq

/-- the C `struct_message` (lines 65-71): the outgoing record. -/
structure struct_message where
  id : Nat
  sensor_1 : struct_sensor
  sensor_2 : struct_sensor
  ver : struct_version
  intervall : Nat
deriving Repr, DecidableEq

/-- the global `struct_message myData` (line 74) as it stands at entry to
`setup`: a global with static storage duration, hence zero-initialized. -/
def myData_initial : struct_message :=
  { id := 0
    sensor_1 := { state := 0, value := 0 }
    sensor_2 := { state := 0, value := 0 }
    ver := { major := 0, minor := 0 }
    intervall := 0 }

/-- the record-initialization part of `setup` (lines 82-85): writes the
device id, firmware version and interval into the outgoing record. -/
def setup_myData (m : struct_message) : struct_message :=
  { m with
    id := UNIQUE_DEVICE_ID
    ver := { major := VER_MAJOR, minor := VER_MINOR }
    intervall := SEND_INTERVALL_SECONDS }

/-- the outgoing record right after `setup` on a fresh boot. -/
def myData_after_setup : struct_message := setup_myData myData_initial

/-- `sizeof(myData)` as passed to `esp_now_send` (line 144): a single
compile-time constant; its byte count follows the declared field widths
(1 id + (1+4) sensor_1 + (1+4) sensor_2 + (1+1) ver + 4 intervall). -/
def sizeof_myData : Nat := 17

/-- one call to `esp_now_send(receiverAdress, &myData, sizeof(myData))`
(line 144), recorded as the datagram handed to the radio driver. -/
structure Datagram where
  dest : List Nat
  payload : struct_message
  len : Nat
deriving Repr, DecidableEq

/-- the retry loop of `send_sensor_values` (lines 142-156).  `r i` is the
driver's return value of the i-th `esp_now_send` call, truncated to
`uint8_t res`; a zero `res` breaks out of the loop, any other value falls
through to the next iteration.  `retry` is the loop counter and `fuel`
the number of iterations left (`max_retries - retry`); the function
returns the list of datagrams issued, in order. -/
def send_retry_loop (r : Nat → Nat) (m : struct_message) :
    Nat → Nat → List Datagram
  | _, 0 => []
  | retry, fuel + 1 =>
    let d : Datagram := { dest := receiverAdress, payload := m, len := sizeof_myData }
    if r retry % 256 = 0 then [d]
    else d :: send_retry_loop r m (retry + 1) fuel

/-- local constant `max_retries` in `send_sensor_values` (line 142). -/
def max_retries : Nat := 3

/-- environment of one cycle: the two `sensors.getTempC` results and the
per-attempt `esp_now_send` return values. -/
structure CycleEnv where
  t1 : Rat
  t2 : Rat
  sendResult : Nat → Nat

/-- `send_sensor_values` (lines 114-157): classify both probe readings
into the outgoing record, then run the bounded retry loop.  Returns the
updated record and the datagrams issued. -/
def send_sensor_values (m : struct_message) (env : CycleEnv) :
    struct_message × List Datagram :=
  let temperature := env.t1
  let m :=
    if temperature ≤ -120 then
      { m with sensor_1 := { m.sensor_1 with state := FAILED } }
    else
      { m with sensor_1 := { state := SUCCESS, value := temperature } }
  let temperature := env.t2
  let m :=
    if temperature ≤ -120 then
      { m with sensor_2 := { m.sensor_2 with state := FAILED } }
    else
      { m with sensor_2 := { state := SUCCESS, value := temperature } }
  (m, send_retry_loop env.sendResult m 0 max_retries)

/-- the argument of `ESP.deepSleep(SEND_INTERVALL_SECONDS * 1000000)`
(line 161), computed in C `int` arithmetic (32-bit on the ESP8266). -/
def start_deep_sleep_arg : Int := (SEND_INTERVALL_SECONDS : Int) * 1000000

/-- observable trace of one execution of the cycle body `loop`
(lines 165-167): the record after acquisition, the datagrams issued, and
the requested sleep duration in microseconds. -/
structure CycleTrace where
  data : struct_message
  sent : List Datagram
  sleep_us : Int

/-- `loop` (lines 165-167): one cycle body, `send_sensor_values`
followed by `start_deep_sleep`. -/
def loop_body (m : struct_message) (env : CycleEnv) : CycleTrace :=
  let (m, sent) := send_sensor_values m env
  { data := m, sent := sent, sleep_us := start_deep_sleep_arg }

/-- iterated cycle bodies within one boot session: thread the outgoing
record through successive executions of `loop` and return it. -/
def run_cycles (m : struct_message) : List CycleEnv → struct_message
  | [] => m
  | env :: rest => run_cycles (send_sensor_values m env).1 rest

/-- observable trace of `setup` (lines 81-112), parameterized by the
return value of `esp_now_init()` (a C `int`).  When the init call
returns non-zero, `setup` prints the diagnostic and returns early,
skipping callback and peer registration; it never halts the program. -/
structure SetupTrace where
  data : struct_message
  espnow_error_msg : Bool
  registered_send_cb : Bool
  registered_peer : Bool

/-- `setup` (lines 81-112): initialize the outgoing record, then init
ESP-NOW; on non-zero init result print the error and return early,
otherwise register the send callback and the peer. -/
def setup (esp_now_init_result : Int) : SetupTrace :=
  let m := setup_myData myData_initial
  if esp_now_init_result ≠ 0 then
    { data := m, espnow_error_msg := true
      registered_send_cb := false, registered_peer := false }
  else
    { data := m, espnow_error_msg := false
      registered_send_cb := true, registered_peer := true }

/-- one boot session under the Arduino runtime: `setup` runs once and
then the cycle body runs, whatever `setup` did (an early return from
`setup` does not halt the program). -/
structure BootTrace where
  setup_trace : SetupTrace
  cycle : CycleTrace

/-- a boot session: `setup` followed by the first execution of `loop`. -/
def boot_session (esp_now_init_result : Int) (env : CycleEnv) : BootTrace :=
  let s := setup esp_now_init_result
  { setup_trace := s, cycle := loop_body s.data env }

/-! ## Helper lemmas -/

/-- the acquisition part of `send_sensor_values` never touches the id,
version or interval fields of the record. -/
theorem send_sensor_values_frame (m : struct_message) (env : CycleEnv) :
    ((send_sensor_values m env).1).id = m.id ∧
    ((send_sensor_values m env).1).ver = m.ver ∧
    ((send_sensor_values m env).1).intervall = m.intervall := by
  simp only [send_sensor_values]
  split_ifs <;> simp

/-- iterating the cycle body never touches the id, version or interval
fields of the record. -/
theorem run_cycles_frame (envs : List CycleEnv) : ∀ m : struct_message,
    (run_cycles m envs).id = m.id ∧
    (run_cycles m envs).ver = m.ver ∧
    (run_cycles m envs).intervall = m.intervall := by
  induction envs with
  | nil => intro m; simp [run_cycles]
  | cons e rest ih =>
    intro m
    have h := send_sensor_values_frame m e
    have h2 := ih (send_sensor_values m e).1
    simp only [run_cycles]
    exact ⟨h2.1.trans h.1, h2.2.1.trans h.2.1, h2.2.2.trans h.2.2⟩

/-- every datagram issued by the retry loop is the same: destination
`receiverAdress`, payload the record as it stood at loop entry, length
`sizeof(myData)`. -/
theorem send_retry_loop_replicate (r : Nat → Nat) (m : struct_message) :
    ∀ fuel retry, send_retry_loop r m retry fuel =
      List.replicate (send_retry_loop r m retry fuel).length
        ⟨receiverAdress, m, sizeof_myData⟩ := by
  intro fuel
  induction fuel with
  | zero => intro retry; simp [send_retry_loop]
  | succ n ih =>
    intro retry
    simp only [send_retry_loop]
    split
    · simp
    · rw [List.length_cons, List.replicate_succ]
      exact congrArg (List.cons _) (ih (retry + 1))

/-- the retry loop issues at most `fuel` sends. -/
theorem send_retry_loop_length_le (r : Nat → Nat) (m : struct_message) :
    ∀ fuel retry, (send_retry_loop r m retry fuel).length ≤ fuel := by
  intro fuel
  induction fuel with
  | zero => intro retry; simp [send_retry_loop]
  | succ n ih =>
    intro retry
    simp only [send_retry_loop]
    split
    · simp
    · simpa using Nat.succ_le_succ (ih (retry + 1))

/-- the retry loop with positive fuel issues at least one send. -/
theorem send_retry_loop_length_pos (r : Nat → Nat) (m : struct_message)
    (fuel retry : Nat) (h : 0 < fuel) :
    0 < (send_retry_loop r m retry fuel).length := by
  cases fuel with
  | zero => exact absurd h (by simp)
  | succ n =>
    simp only [send_retry_loop]
    split <;> simp

/-! ## Claim theorems -/

/-- C1: for every temperature value v returned by a probe read, if
v ≤ -120 the acquisition sets that sensor's state to FAILED, and if
v > -120 it sets the state to SUCCESS and stores v exactly in that
sensor's value field; for probe 1 and probe 2 alike. -/
theorem acquisition_classifies_readings (m : struct_message) (env : CycleEnv) :
    ((env.t1 ≤ -120 → ((send_sensor_values m env).1).sensor_1.state = FAILED) ∧
     (-120 < env.t1 → ((send_sensor_values m env).1).sensor_1.state = SUCCESS ∧
        ((send_sensor_values m env).1).sensor_1.value = env.t1)) ∧
    ((env.t2 ≤ -120 → ((send_sensor_values m env).1).sensor_2.state = FAILED) ∧
     (-120 < env.t2 → ((send_sensor_values m env).1).sensor_2.state = SUCCESS ∧
        ((send_sensor_values m env).1).sensor_2.value = env.t2)) := by
  simp only [send_sensor_values]
  split_ifs with h1 h2 h2 <;> simp_all [le_of_lt, not_le, not_lt]

/-- C1 witness: at probe values 21.5 and -127 the record ends with
sensor 1 = (SUCCESS, 21.5) and sensor 2 FAILED. -/
theorem acquisition_classifies_readings_witness :
    (((send_sensor_values myData_after_setup ⟨21.5, -127, fun _ => 0⟩).1).sensor_1.state = SUCCESS ∧
     ((send_sensor_values myData_after_setup ⟨21.5, -127, fun _ => 0⟩).1).sensor_1.value = 21.5) ∧
    ((send_sensor_values myData_after_setup ⟨21.5, -127, fun _ => 0⟩).1).sensor_2.state = FAILED :=
  ⟨(acquisition_classifies_readings myData_after_setup ⟨21.5, -127, fun _ => 0⟩).1.2
      (by norm_num),
   (acquisition_classifies_readings myData_after_setup ⟨21.5, -127, fun _ => 0⟩).2.1
      (by norm_num)⟩

/-- C2: in every cycle the retry loop issues at most 3 send attempts; it
terminates right after the first attempt whose stored result `res` is
zero, and a non-zero result leads straight to the next attempt (so if
the first success is attempt k, exactly k+1 attempts are issued, and if
no attempt succeeds all 3 are issued). -/
theorem retry_loop_attempt_count (r : Nat → Nat) (m : struct_message) :
    (send_retry_loop r m 0 max_retries).length ≤ 3 ∧
    (∀ k, k < 3 → r k % 256 = 0 → (∀ j, j < k → r j % 256 ≠ 0) →
      (send_retry_loop r m 0 max_retries).length = k + 1) ∧
    ((∀ j, j < 3 → r j % 256 ≠ 0) →
      (send_retry_loop r m 0 max_retries).length = 3) := by
  by_cases h0 : r 0 % 256 = 0
  · refine ⟨by simp [send_retry_loop, max_retries, h0], ?_, ?_⟩
    · intro k hk hzk hprev
      have hk0 : k = 0 := by
        by_contra hne
        exact hprev 0 (Nat.pos_of_ne_zero hne) h0
      subst hk0
      simp [send_retry_loop, max_retries, h0]
    · intro hall
      exact absurd h0 (hall 0 (by norm_num))
  · by_cases h1 : r 1 % 256 = 0
    · refine ⟨by simp [send_retry_loop, max_retries, h0, h1], ?_, ?_⟩
      · intro k hk hzk hprev
        have hk1 : k = 1 := by
          interval_cases k
          · exact absurd hzk h0
          · rfl
          · exact absurd h1 (hprev 1 (by norm_num))
        subst hk1
        simp [send_retry_loop, max_retries, h0, h1]
      · intro hall
        exact absurd h1 (hall 1 (by norm_num))
    · by_cases h2 : r 2 % 256 = 0
      · refine ⟨by simp [send_retry_loop, max_retries, h0, h1, h2], ?_, ?_⟩
        · intro k hk hzk hprev
          have hk2 : k = 2 := by
            interval_cases k
            · exact absurd hzk h0
            · exact absurd hzk h1
            · rfl
          subst hk2
          simp [send_retry_loop, max_retries, h0, h1, h2]
        · intro _
          simp [send_retry_loop, max_retries, h0, h1, h2]
      · refine ⟨by simp [send_retry_loop, max_retries, h0, h1, h2], ?_, ?_⟩
        · intro k hk hzk hprev
          interval_cases k
          · exact absurd hzk h0
          · exact absurd hzk h1
          · exact absurd hzk h2
        · intro _
          simp [send_retry_loop, max_retries, h0, h1, h2]

/-- C2 witness: when the first attempt fails with result 1 and the second
succeeds with result 0, exactly 2 attempts are issued. -/
theorem retry_loop_attempt_count_witness :
    (send_retry_loop (fun i => if i = 0 then 1 else 0) myData_after_setup 0
      max_retries).length = 2 :=
  (retry_loop_attempt_count (fun i => if i = 0 then 1 else 0) myData_after_setup).2.1
    1 (by norm_num) (by norm_num)
    (by intro j hj; interval_cases j; norm_num)

/-- C3 counterexample: the claim says the address used for probe 1 is
distinct from the address used for probe 2, but the two configured
constants hold the very same 8 bytes (both are the address listed for
"sensor 5" in the source's comment). -/
theorem probe_addresses_equal_counterexample : sensor1 = sensor2 := rfl

/-- C3 (amended): the two configured probe identities are fixed 8-byte
compile-time constant 1-wire addresses (each byte fitting in one byte),
but the address configured for probe 1 is EQUAL to the one configured
for probe 2, not distinct from it. -/
theorem probe_addresses_constants :
    sensor1.length = 8 ∧ sensor2.length = 8 ∧
    sensor1.all (fun b => b < 256) = true ∧
    sensor2.all (fun b => b < 256) = true ∧
    sensor1 = sensor2 := by
  refine ⟨rfl, rfl, by decide, by decide, rfl⟩

/-- C4: the deep-sleep request is the configured interval in seconds
times exactly 1,000,000; with the configured 1800 seconds this is the
integer 1,800,000,000, which fits a 32-bit signed int, so the C `int`
multiplication does not overflow. -/
theorem deep_sleep_duration :
    start_deep_sleep_arg = (SEND_INTERVALL_SECONDS : Int) * 1000000 ∧
    SEND_INTERVALL_SECONDS = 1800 ∧
    start_deep_sleep_arg = 1800000000 ∧
    0 ≤ start_deep_sleep_arg ∧ start_deep_sleep_arg < 2 ^ 31 := by
  refine ⟨rfl, rfl, rfl, by norm_num [start_deep_sleep_arg, SEND_INTERVALL_SECONDS],
    by norm_num [start_deep_sleep_arg, SEND_INTERVALL_SECONDS]⟩

/-- C5: the outgoing record's id, version-major, version-minor and
interval fields are set once in `setup` and are not mutated by any
number of executions of the cycle body within one boot session. -/
theorem record_constants_invariant (envs : List CycleEnv) :
    (run_cycles myData_after_setup envs).id = UNIQUE_DEVICE_ID ∧
    (run_cycles myData_after_setup envs).ver.major = VER_MAJOR ∧
    (run_cycles myData_after_setup envs).ver.minor = VER_MINOR ∧
    (run_cycles myData_after_setup envs).intervall = SEND_INTERVALL_SECONDS := by
  have h := run_cycles_frame envs myData_after_setup
  refine ⟨h.1.trans rfl, ?_, ?_, h.2.2.trans rfl⟩
  · rw [h.2.1]; rfl
  · rw [h.2.1]; rfl

/-- C6: when every send attempt of a cycle fails (non-zero result), the
retry loop completes its fixed 3 attempts and returns to the caller; no
fatal condition arises (the cycle trace is still produced) and deep
sleep is requested with exactly the same duration as in any other cycle,
success case included. -/
theorem all_sends_fail_still_sleeps (m : struct_message) (env : CycleEnv)
    (hfail : ∀ j, j < 3 → env.sendResult j % 256 ≠ 0) :
    (loop_body m env).sent.length = max_retries ∧
    (loop_body m env).sleep_us = start_deep_sleep_arg ∧
    (∀ m2 env2, (loop_body m env).sleep_us = (loop_body m2 env2).sleep_us) := by
  refine ⟨?_, rfl, fun m2 env2 => rfl⟩
  have h := (retry_loop_attempt_count env.sendResult (send_sensor_values m env).1).2.2 hfail
  have e : (loop_body m env).sent =
      send_retry_loop env.sendResult (send_sensor_values m env).1 0 max_retries := rfl
  rw [e, h]; rfl

/-- C6 witness: with both probes failing and every send returning 1, the
cycle still issues 3 attempts and requests the standard sleep. -/
theorem all_sends_fail_still_sleeps_witness :
    (loop_body myData_after_setup ⟨21.5, -127, fun _ => 1⟩).sent.length = max_retries ∧
    (loop_body myData_after_setup ⟨21.5, -127, fun _ => 1⟩).sleep_us = start_deep_sleep_arg :=
  ⟨(all_sends_fail_still_sleeps myData_after_setup ⟨21.5, -127, fun _ => 1⟩
      (by intro j hj; norm_num)).1,
   (all_sends_fail_still_sleeps myData_after_setup ⟨21.5, -127, fun _ => 1⟩
      (by intro j hj; norm_num)).2.1⟩

/-- C7: when `esp_now_init()` returns non-zero, `setup` prints the
diagnostic and returns early, so neither the send callback nor the peer
is registered; the program does not halt, and the cycle still runs in
that boot session: acquisition happens, at least one send attempt is
issued and deep sleep is requested as usual. -/
theorem espnow_init_failure_nonfatal (res : Int) (env : CycleEnv) (h : res ≠ 0) :
    (boot_session res env).setup_trace.espnow_error_msg = true ∧
    (boot_session res env).setup_trace.registered_send_cb = false ∧
    (boot_session res env).setup_trace.registered_peer = false ∧
    (boot_session res env).cycle.data = (send_sensor_values myData_after_setup env).1 ∧
    1 ≤ (boot_session res env).cycle.sent.length ∧
    (boot_session res env).cycle.sleep_us = start_deep_sleep_arg := by
  have hset : setup res =
      { data := myData_after_setup, espnow_error_msg := true
        registered_send_cb := false, registered_peer := false } := by
    simp only [setup, myData_after_setup]
    rw [if_pos h]
  have hlen : 1 ≤ (loop_body myData_after_setup env).sent.length := by
    have e : (loop_body myData_after_setup env).sent =
        send_retry_loop env.sendResult
          (send_sensor_values myData_after_setup env).1 0 max_retries := rfl
    rw [e]
    exact send_retry_loop_length_pos env.sendResult _ max_retries 0 (by norm_num [max_retries])
  simp only [boot_session, hset]
  exact ⟨trivial, trivial, trivial, rfl, hlen, rfl⟩

/-- C7 witness: with init result -1 the diagnostic fires, no peer is
registered, and the cycle still requests the standard deep sleep. -/
theorem espnow_init_failure_nonfatal_witness :
    (boot_session (-1) ⟨21.5, -127, fun _ => 0⟩).setup_trace.espnow_error_msg = true ∧
    (boot_session (-1) ⟨21.5, -127, fun _ => 0⟩).setup_trace.registered_peer = false ∧
    1 ≤ (boot_session (-1) ⟨21.5, -127, fun _ => 0⟩).cycle.sent.length ∧
    (boot_session (-1) ⟨21.5, -127, fun _ => 0⟩).cycle.sleep_us = start_deep_sleep_arg :=
  ⟨(espnow_init_failure_nonfatal (-1) ⟨21.5, -127, fun _ => 0⟩ (by norm_num)).1,
   (espnow_init_failure_nonfatal (-1) ⟨21.5, -127, fun _ => 0⟩ (by norm_num)).2.2.1,
   (espnow_init_failure_nonfatal (-1) ⟨21.5, -127, fun _ => 0⟩ (by norm_num)).2.2.2.2.1,
   (espnow_init_failure_nonfatal (-1) ⟨21.5, -127, fun _ => 0⟩ (by norm_num)).2.2.2.2.2⟩

/-- C8: end-to-end, with probe 1 reading 21.5 and probe 2 reading the
fault sentinel -127, the cycle ends with sensor 1 = (SUCCESS, 21.5) and
sensor 2 FAILED; one send-attempt sequence of 1 to 3 identical datagrams
is issued, all targeting the configured peer address, and the device
requests suspension for 1800 seconds expressed in microseconds. -/
theorem end_to_end_scenario (r : Nat → Nat) :
    (boot_session 0 ⟨21.5, -127, r⟩).cycle.data.sensor_1 = ⟨SUCCESS, 21.5⟩ ∧
    (boot_session 0 ⟨21.5, -127, r⟩).cycle.data.sensor_2.state = FAILED ∧
    1 ≤ (boot_session 0 ⟨21.5, -127, r⟩).cycle.sent.length ∧
    (boot_session 0 ⟨21.5, -127, r⟩).cycle.sent.length ≤ 3 ∧
    (boot_session 0 ⟨21.5, -127, r⟩).cycle.sent =
      List.replicate (boot_session 0 ⟨21.5, -127, r⟩).cycle.sent.length
        ⟨receiverAdress, (boot_session 0 ⟨21.5, -127, r⟩).cycle.data, sizeof_myData⟩ ∧
    (boot_session 0 ⟨21.5, -127, r⟩).cycle.sleep_us = 1800 * 1000000 := by
  have h1 : ¬((21.5 : Rat) ≤ -120) := by norm_num
  have h2 : ((-127 : Rat) ≤ -120) := by norm_num
  have hm : (boot_session 0 ⟨21.5, -127, r⟩).cycle.data =
      (send_sensor_values myData_after_setup ⟨21.5, -127, r⟩).1 := rfl
  have hsent : (boot_session 0 ⟨21.5, -127, r⟩).cycle.sent =
      send_retry_loop r (send_sensor_values myData_after_setup ⟨21.5, -127, r⟩).1
        0 max_retries := rfl
  refine ⟨?_, ?_, ?_, ?_, ?_, rfl⟩
  · rw [hm]; simp only [send_sensor_values]; rw [if_neg h1, if_pos h2]
  · rw [hm]; simp only [send_sensor_values]; rw [if_neg h1, if_pos h2]
  · rw [hsent]
    exact send_retry_loop_length_pos r _ max_retries 0 (by norm_num [max_retries])
  · rw [hsent]
    exact send_retry_loop_length_le r _ max_retries 0
  · rw [hsent, hm]
    exact send_retry_loop_replicate r _ max_retries 0

/-- C9: when a probe reading classifies as failed, acquisition writes
only the state field and leaves the value field exactly unchanged; on a
fresh boot the zero-initialized record carries value 0 in both sensor
value fields, so a failed-only sensor reports value 0.0. -/
theorem failed_reading_preserves_value (m : struct_message) (env : CycleEnv) :
    (env.t1 ≤ -120 → ((send_sensor_values m env).1).sensor_1.value = m.sensor_1.value) ∧
    (env.t2 ≤ -120 → ((send_sensor_values m env).1).sensor_2.value = m.sensor_2.value) ∧
    myData_after_setup.sensor_1.value = 0 ∧
    myData_after_setup.sensor_2.value = 0 := by
  refine ⟨?_, ?_, rfl, rfl⟩ <;> intro h <;>
    simp only [send_sensor_values] <;> split_ifs <;> simp_all

/-- C9 witness: with both probes returning the sentinel -127, both value
fields keep their prior (zero-initialized) content. -/
theorem failed_reading_preserves_value_witness :
    ((send_sensor_values myData_after_setup ⟨-127, -127, fun _ => 0⟩).1).sensor_1.value =
      myData_after_setup.sensor_1.value ∧
    ((send_sensor_values myData_after_setup ⟨-127, -127, fun _ => 0⟩).1).sensor_2.value =
      myData_after_setup.sensor_2.value :=
  ⟨(failed_reading_preserves_value myData_after_setup ⟨-127, -127, fun _ => 0⟩).1
      (by norm_num),
   (failed_reading_preserves_value myData_after_setup ⟨-127, -127, fun _ => 0⟩).2.1
      (by norm_num)⟩

/-- C10: within one cycle the retry loop sends the identical datagram on
every attempt (same destination `receiverAdress`, same payload record,
same length argument), and acquisition sets each sensor's state to
SUCCESS or to FAILED, so the NOT_USED value never appears in a sent
record. -/
theorem sends_identical_and_states_set (m : struct_message) (env : CycleEnv) :
    (send_sensor_values m env).2 =
      List.replicate (send_sensor_values m env).2.length
        ⟨receiverAdress, (send_sensor_values m env).1, sizeof_myData⟩ ∧
    (((send_sensor_values m env).1).sensor_1.state = SUCCESS ∨
      ((send_sensor_values m env).1).sensor_1.state = FAILED) ∧
    (((send_sensor_values m env).1).sensor_2.state = SUCCESS ∨
      ((send_sensor_values m env).1).sensor_2.state = FAILED) := by
  refine ⟨?_, ?_, ?_⟩
  · have e : (send_sensor_values m env).2 =
        send_retry_loop env.sendResult (send_sensor_values m env).1 0 max_retries := rfl
    rw [e]
    exact send_retry_loop_replicate env.sendResult _ max_retries 0
  · simp only [send_sensor_values]; split_ifs <;> simp
  · simp only [send_sensor_values]; split_ifs <;> simp
